import Mathlib

/-!
Verification development for the printer session engine of the
`iobroker.elegoo-centauri` adapter.

The JavaScript sources are shallowly embedded in Lean:

* JavaScript numbers are modelled by `JsNum`: `NaN`, the two infinities, or
  a finite value represented as an exact (unnormalised) fraction `Frac`.
  Binary floating-point rounding error is not modelled; all arithmetic the
  embedded functions perform (floor, truncating remainder, division by a
  positive constant, round-half-up) is exact on fractions and agrees with
  the IEEE semantics on the integral and short-decimal inputs the adapter
  handles.
* JavaScript objects whose fields may be absent are modelled by structures
  of `Option`-typed slots; the adapter's truthiness tests (`if (x)`,
  `x || 0`) are embedded by explicit helper functions.
* The event-driven session objects (`MonitoringService` of
  `lib/monitoring.js` and the draft `MonitoringHandler` of the unnamed
  alternate implementation) become records, and each event handler becomes
  a state-transition function.  `setTimeout`/`setInterval`/`clearTimeout`
  are modelled by instrumentation fields counting (or listing, for the
  draft) the live timers owned by the runtime, next to the object's own
  timer-handle fields.
-/

/-- An exact finite value `num / den` (`den` is kept positive by every
constructor below; fractions are not normalised, and all theorems compare
them structurally after identical constructions or via explicit values). -/
structure Frac where
  num : ℤ
  den : ℕ
deriving DecidableEq, Repr

/-- A JavaScript number: `NaN`, `Infinity`, `-Infinity`, or a finite value. -/
inductive JsNum where
  | nan : JsNum
  | inf : JsNum
  | ninf : JsNum
  | num : Frac → JsNum
deriving DecidableEq, Repr

/-- Embed an integer as a JavaScript number. -/
def JsNum.int (z : ℤ) : JsNum := .num ⟨z, 1⟩

/-- JavaScript falsiness of a number: `NaN`, `0` and `-0` are falsy. -/
def jsFalsy : JsNum → Bool
  | .nan => true
  | .num f => decide (f.num = 0)
  | _ => false

/-- The JavaScript comparison `x < 0` (false on `NaN`). -/
def jsNeg : JsNum → Bool
  | .ninf => true
  | .num f => decide (f.num < 0)
  | _ => false

/-- Embeds `isNaN(x)` for a number argument. -/
def jsIsNaN : JsNum → Bool
  | .nan => true
  | _ => false

/-- Floor of a finite value (`Int./` is Euclidean division, which is floor
division for the positive denominator). -/
def fracFloor (f : Frac) : ℤ :=
  f.num / (f.den : ℤ)

/-- Truncation toward zero, as used by the JavaScript `%` operator. -/
def fracTrunc (f : Frac) : ℤ :=
  if 0 ≤ f.num then fracFloor f else -((-f.num) / (f.den : ℤ))

/-- Division of a JavaScript number by a positive integer constant
(`x / 3600`, `x / 60`). -/
def jsDivC (x : JsNum) (c : ℕ) : JsNum :=
  match x with
  | .num f => .num ⟨f.num, f.den * c⟩
  | y => y

/-- The JavaScript remainder `x % c` for a positive integer constant `c`:
`NaN` on non-finite operands, otherwise `x - c * trunc(x / c)`. -/
def jsModC (x : JsNum) (c : ℕ) : JsNum :=
  match x with
  | .num f => .num ⟨f.num - (c : ℤ) * fracTrunc ⟨f.num, f.den * c⟩ * (f.den : ℤ), f.den⟩
  | _ => .nan

/-- Embeds `Math.floor(x).toString()`: the composition as it occurs in the time
formatters.  `Math.floor` maps `NaN`/`±Infinity` to themselves and
`toString` prints them as `"NaN"`/`"Infinity"`/`"-Infinity"`; a finite
value is floored to an integer and printed in decimal. -/
def floorToString (x : JsNum) : String :=
  match x with
  | .nan => "NaN"
  | .inf => "Infinity"
  | .ninf => "-Infinity"
  | .num f => Int.repr (fracFloor f)

/-- Embeds `s.padStart(2, '0')`. -/
def padStart2 (s : String) : String :=
  if s.length < 2 then String.pushn "" '0' (2 - s.length) ++ s else s

/-- Embeds `formatTime(seconds)` from `lib/monitoring.js`:
`if (!seconds || seconds < 0) return '00:00:00';` then zero-padded
`hours:minutes:seconds` computed with `Math.floor` and `%`. -/
def formatTime (seconds : JsNum) : String :=
  if jsFalsy seconds || jsNeg seconds then "00:00:00"
  else
    padStart2 (floorToString (jsDivC seconds 3600)) ++ ":" ++
    padStart2 (floorToString (jsDivC (jsModC seconds 3600) 60)) ++ ":" ++
    padStart2 (floorToString (jsModC seconds 60))

/-- Embeds `formatSeconds(seconds)` from the unnamed draft implementation:
`if (isNaN(seconds) || seconds < 0) return '00:00:00';` then the same
zero-padded `h:m:s` computation as `formatTime`. -/
def formatSeconds (seconds : JsNum) : String :=
  if jsIsNaN seconds || jsNeg seconds then "00:00:00"
  else
    padStart2 (floorToString (jsDivC seconds 3600)) ++ ":" ++
    padStart2 (floorToString (jsDivC (jsModC seconds 3600) 60)) ++ ":" ++
    padStart2 (floorToString (jsModC seconds 60))

/-- Embeds `x || 0` on an optional numeric field (absent or falsy becomes `0`). -/
def jsOr0 (o : Option JsNum) : JsNum :=
  match o with
  | some v => if jsFalsy v then .int 0 else v
  | none => .int 0

/-- Embeds `x || d` on an optional numeric field with integer default `d`
(`printInfo.PrintSpeedPct || 100`). -/
def jsOrD (o : Option JsNum) (d : ℤ) : JsNum :=
  match o with
  | some v => if jsFalsy v then .int d else v
  | none => .int d

/-- Truthiness of an optional numeric field, as in
`if (printInfo.CurrentTicks && printInfo.TotalTicks)`. -/
def truthyN (o : Option JsNum) : Bool :=
  match o with
  | some v => !jsFalsy v
  | none => false

/-- Embeds `Math.round` of a finite value: round half up (toward `+∞`),
computed exactly as `⌊q + 1/2⌋`. -/
def fracRound (f : Frac) : ℤ :=
  (2 * f.num + (f.den : ℤ)) / (2 * (f.den : ℤ))

/-- Embeds `Math.round(x * 100) / 100` — temperature rounding to 2 decimals. -/
def round2 : JsNum → JsNum
  | .num f => .num ⟨fracRound ⟨f.num * 100, f.den⟩, 100⟩
  | x => x

/-- Embeds `Math.round(x * 10000) / 10000` — z-offset rounding to 4 decimals. -/
def round4 : JsNum → JsNum
  | .num f => .num ⟨fracRound ⟨f.num * 10000, f.den⟩, 10000⟩
  | x => x

/-- JavaScript subtraction `a - b`. -/
def jsSub : JsNum → JsNum → JsNum
  | .num a, .num b => .num ⟨a.num * (b.den : ℤ) - b.num * (a.den : ℤ), a.den * b.den⟩
  | .nan, _ => .nan
  | _, .nan => .nan
  | .inf, .inf => .nan
  | .inf, _ => .inf
  | .ninf, .ninf => .nan
  | .ninf, _ => .ninf
  | .num _, .inf => .ninf
  | .num _, .ninf => .inf

/-- Embeds `Math.max(0, x)`. -/
def jsMax0 : JsNum → JsNum
  | .nan => .nan
  | .inf => .inf
  | .ninf => .int 0
  | .num f => if f.num < 0 then .int 0 else .num f

/-- Splitting accumulator for `jsSplit` (JavaScript `String.split` with a
one-character separator). -/
def splitCharAux (sep : Char) : List Char → List Char → List String
  | [], acc => [String.mk acc.reverse]
  | c :: rest, acc =>
      if c = sep then String.mk acc.reverse :: splitCharAux sep rest []
      else splitCharAux sep rest (c :: acc)

/-- JavaScript `s.split(sep)` for a one-character separator. -/
def jsSplit (s : String) (sep : Char) : List String :=
  splitCharAux sep s.toList []

/-- Digit run to a natural number. -/
def digitsToNat (l : List Char) : ℕ :=
  l.foldl (fun a c => a * 10 + (c.toNat - 48)) 0

/-- The decimal core of JavaScript `parseFloat` on a character list:
skip leading whitespace, optional sign, longest digit run, optional `.`
plus digit run; `none` (`NaN`) when no digit was consumed.  Trailing
garbage is ignored, exactly as `parseFloat` ignores it.  (Exponent
notation and `Infinity` literals do not occur in the coordinate strings
and are outside the model.) -/
def parseFloatChars (l : List Char) : Option Frac :=
  let l0 := l.dropWhile (fun c => c = ' ' || c = '\t' || c = '\n' || c = '\r')
  let signRest : ℤ × List Char :=
    match l0 with
    | '-' :: t => (-1, t)
    | '+' :: t => (1, t)
    | _ => (1, l0)
  let intDigits := signRest.2.takeWhile Char.isDigit
  let l2 := signRest.2.dropWhile Char.isDigit
  let fracDigits : List Char :=
    match l2 with
    | '.' :: t => t.takeWhile Char.isDigit
    | _ => []
  if intDigits.isEmpty && fracDigits.isEmpty then none
  else
    some ⟨signRest.1 * ((digitsToNat intDigits : ℤ) * (10 : ℤ) ^ fracDigits.length +
            (digitsToNat fracDigits : ℤ)), 10 ^ fracDigits.length⟩

/-- JavaScript `parseFloat(s)` (`NaN` when no numeric prefix exists). -/
def parseFloat (s : String) : JsNum :=
  match parseFloatChars s.toList with
  | some f => .num f
  | none => .nan

/-- Embeds `toString` of a number as interpolated into strings.  Integral values
(the only ones the claims touch) print exactly as JavaScript prints them;
a non-integral value is rendered as an explicit fraction. -/
def jsRepr : JsNum → String
  | .nan => "NaN"
  | .inf => "Infinity"
  | .ninf => "-Infinity"
  | .num f =>
      if f.num % (f.den : ℤ) = 0 then Int.repr (f.num / (f.den : ℤ))
      else Int.repr f.num ++ "/" ++ Nat.repr f.den

/-- Embeds `CurrentFanSpeed` block of an inbound SDCP status payload. -/
structure FanBlock where
  ModelFan : Option JsNum
  AuxiliaryFan : Option JsNum
  BoxFan : Option JsNum
deriving DecidableEq, Repr

/-- Embeds `PrintInfo` block of an inbound SDCP status payload. -/
structure PrintInfoBlock where
  Status : Option JsNum
  Progress : Option JsNum
  CurrentLayer : Option JsNum
  TotalLayer : Option JsNum
  PrintSpeedPct : Option JsNum
  Filename : Option String
  CurrentTicks : Option JsNum
  TotalTicks : Option JsNum
deriving DecidableEq, Repr

/-- Embeds `LightStatus` block of an inbound SDCP status payload. -/
structure LightBlock where
  SecondLight : Option Bool
  RgbLight : Option (List JsNum)
deriving DecidableEq, Repr

/-- The `Status` block of an inbound SDCP message, with exactly the fields
`updatePrinterStatus` reads.  `none` models an absent (or, for the
object/string-valued slots, falsy) field. -/
structure StatusBlock where
  TempOfNozzle : Option JsNum
  TempOfHotbed : Option JsNum
  TempOfBox : Option JsNum
  TempTargetNozzle : Option JsNum
  TempTargetHotbed : Option JsNum
  TempTargetBox : Option JsNum
  CurrentFanSpeed : Option FanBlock
  PrintInfo : Option PrintInfoBlock
  CurrenCoord : Option String
  ZOffset : Option JsNum
  LightStatus : Option LightBlock
deriving DecidableEq, Repr

/-- The empty status block (an envelope carrying no status field at all). -/
def emptyStatus : StatusBlock :=
  ⟨none, none, none, none, none, none, none, none, none, none, none⟩

/-- The adapter-visible device state: one slot per ioBroker state written by
`updatePrinterStatus`. -/
structure DeviceState where
  nozzleActual : JsNum
  bedActual : JsNum
  chamberActual : JsNum
  nozzleTarget : JsNum
  bedTarget : JsNum
  chamberTarget : JsNum
  fanModel : JsNum
  fanAuxiliary : JsNum
  fanChamber : JsNum
  printStatusText : String
  printStatusCode : JsNum
  progress : JsNum
  currentLayer : JsNum
  totalLayers : JsNum
  speedPercentage : JsNum
  filename : String
  totalTime : String
  elapsedTime : String
  remainingTime : String
  posX : JsNum
  posY : JsNum
  posZ : JsNum
  zOffset : JsNum
  lightChamber : Bool
  rgbR : JsNum
  rgbG : JsNum
  rgbB : JsNum
deriving DecidableEq, Repr

/-- Embeds `mapPrintStatus(statusCode)`: the SDCP status-code table, defaulting to
`Unknown (code)`.  Lookup is by numeric value, as JavaScript property
access stringifies the number. -/
def mapPrintStatus (o : Option JsNum) : String :=
  match o with
  | some (.num f) =>
      if f.num = 0 then "Idle"
      else if f.num = 8 * (f.den : ℤ) then "Preparing"
      else if f.num = 9 * (f.den : ℤ) then "Starting"
      else if f.num = 10 * (f.den : ℤ) then "Paused"
      else if f.num = 13 * (f.den : ℤ) then "Printing"
      else "Unknown (" ++ jsRepr (.num f) ++ ")"
  | some v => "Unknown (" ++ jsRepr v ++ ")"
  | none => "Unknown (undefined)"

/-- The six temperature writes of `updatePrinterStatus`: each present field
is rounded to 2 decimals and written; absent fields leave the previous
value. -/
def applyTemps (s : DeviceState) (st : StatusBlock) : DeviceState :=
  let s1 := match st.TempOfNozzle with
    | some t => { s with nozzleActual := round2 t }
    | none => s
  let s2 := match st.TempOfHotbed with
    | some t => { s1 with bedActual := round2 t }
    | none => s1
  let s3 := match st.TempOfBox with
    | some t => { s2 with chamberActual := round2 t }
    | none => s2
  let s4 := match st.TempTargetNozzle with
    | some t => { s3 with nozzleTarget := round2 t }
    | none => s3
  let s5 := match st.TempTargetHotbed with
    | some t => { s4 with bedTarget := round2 t }
    | none => s4
  match st.TempTargetBox with
  | some t => { s5 with chamberTarget := round2 t }
  | none => s5

/-- The fan-speed write block: only entered when `CurrentFanSpeed` is
present (truthy); inside, absent member fields coerce to `0` via `|| 0`. -/
def applyFans (s : DeviceState) (st : StatusBlock) : DeviceState :=
  match st.CurrentFanSpeed with
  | some f =>
      { s with fanModel := jsOr0 f.ModelFan,
               fanAuxiliary := jsOr0 f.AuxiliaryFan,
               fanChamber := jsOr0 f.BoxFan }
  | none => s

/-- The print-information write block, including the guarded time fields:
`remaining = Math.max(0, total - elapsed)` is computed and all three time
strings are formatted only when both tick counters are truthy. -/
def applyPrintInfo (s : DeviceState) (st : StatusBlock) : DeviceState :=
  match st.PrintInfo with
  | some pi =>
      let t1 := { s with printStatusText := mapPrintStatus pi.Status,
                         printStatusCode := jsOr0 pi.Status,
                         progress := jsOr0 pi.Progress,
                         currentLayer := jsOr0 pi.CurrentLayer,
                         totalLayers := jsOr0 pi.TotalLayer,
                         speedPercentage := jsOrD pi.PrintSpeedPct 100 }
      let t2 := match pi.Filename with
        | some f => if f = "" then t1 else { t1 with filename := f }
        | none => t1
      if truthyN pi.CurrentTicks && truthyN pi.TotalTicks then
        let total := jsOr0 pi.TotalTicks
        let elapsed := jsOr0 pi.CurrentTicks
        let remaining := jsMax0 (jsSub total elapsed)
        { t2 with totalTime := formatTime total,
                  elapsedTime := formatTime elapsed,
                  remainingTime := formatTime remaining }
      else t2
  | none => s

/-- The coordinate write block: the `CurrenCoord` string, when truthy, is
split on commas; exactly three tokens are written through
`parseFloat(token) || 0`, any other token count leaves the position
unchanged.  (`split` cannot throw, so the surrounding `try` never logs.) -/
def applyCoords (s : DeviceState) (st : StatusBlock) : DeviceState :=
  match st.CurrenCoord with
  | some c =>
      if c = "" then s
      else
        if (jsSplit c ',').length = 3 then
          { s with posX := jsOr0 (some (parseFloat ((jsSplit c ',').getD 0 ""))),
                   posY := jsOr0 (some (parseFloat ((jsSplit c ',').getD 1 ""))),
                   posZ := jsOr0 (some (parseFloat ((jsSplit c ',').getD 2 ""))) }
        else s
  | none => s

/-- The z-offset write: rounded to 4 decimals when present. -/
def applyZOffset (s : DeviceState) (st : StatusBlock) : DeviceState :=
  match st.ZOffset with
  | some z => { s with zOffset := round4 z }
  | none => s

/-- The lighting write block. -/
def applyLights (s : DeviceState) (st : StatusBlock) : DeviceState :=
  match st.LightStatus with
  | some l =>
      let t1 := { s with lightChamber := l.SecondLight.getD false }
      match l.RgbLight with
      | some rgb =>
          if rgb.length ≥ 3 then
            { t1 with rgbR := jsOr0 (rgb.get? 0),
                      rgbG := jsOr0 (rgb.get? 1),
                      rgbB := jsOr0 (rgb.get? 2) }
          else t1
      | none => t1
  | none => s

/-- Embeds `updatePrinterStatus(status)` from `lib/monitoring.js`: the sequential
field-group updates applied to the previous device state. -/
def updatePrinterStatus (prev : DeviceState) (st : StatusBlock) : DeviceState :=
  applyLights (applyZOffset (applyCoords (applyPrintInfo (applyFans (applyTemps prev st) st) st) st) st) st

/-- WebSocket `readyState` values. -/
inductive ReadyState where
  | connecting : ReadyState
  | opened : ReadyState
  | closing : ReadyState
  | closed : ReadyState
deriving DecidableEq, Repr

/-- The `MonitoringService` object of `lib/monitoring.js`.  The first six
fields are the object's own fields (`this.ws` carries the socket's
readyState, `null` is `none`; the three timer handles are collapsed to
their null test).  The `live*` fields instrument the timer runtime: how
many `setTimeout`/`setInterval` callbacks of each kind are currently
pending (`scheduleReconnect`, `startPolling` and `startKeepAlive` all
clear the previous handle before arming a new one, so a handle that is
non-null is exactly a live timer until it fires).  `sentCmds` logs every
`(Cmd, RequestID counter)` frame written to the socket. -/
structure MS where
  ws : Option ReadyState
  reconnectTimer : Bool
  pollTimer : Bool
  keepAliveTimer : Bool
  requestId : ℕ
  isConnected : Bool
  liveReconnects : ℕ
  livePolls : ℕ
  liveKeepAlives : ℕ
  sentCmds : List (ℕ × ℕ)
deriving DecidableEq, Repr

/-- The constructor state of `MonitoringService`. -/
def initMS : MS :=
  ⟨none, false, false, false, 0, false, 0, 0, 0, []⟩

/-- Embeds `clearReconnect()`: cancel and null the reconnect handle. -/
def clearReconnect (s : MS) : MS :=
  if s.reconnectTimer then
    { s with reconnectTimer := false, liveReconnects := s.liveReconnects - 1 }
  else s

/-- Embeds `clearPolling()`. -/
def clearPolling (s : MS) : MS :=
  if s.pollTimer then
    { s with pollTimer := false, livePolls := s.livePolls - 1 }
  else s

/-- Embeds `clearKeepAlive()`. -/
def clearKeepAlive (s : MS) : MS :=
  if s.keepAliveTimer then
    { s with keepAliveTimer := false, liveKeepAlives := s.liveKeepAlives - 1 }
  else s

/-- Embeds `clearTimers()`: reconnect, then poll, then keep-alive. -/
def clearTimers (s : MS) : MS :=
  clearKeepAlive (clearPolling (clearReconnect s))

/-- Embeds `scheduleReconnect()`: always clears the previous handle, then arms a
fresh timeout. -/
def scheduleReconnect (s : MS) : MS :=
  let s1 := clearReconnect s
  { s1 with reconnectTimer := true, liveReconnects := s1.liveReconnects + 1 }

/-- Embeds `startKeepAlive()`: clear, then arm the interval. -/
def startKeepAlive (s : MS) : MS :=
  let s1 := clearKeepAlive s
  { s1 with keepAliveTimer := true, liveKeepAlives := s1.liveKeepAlives + 1 }

/-- Embeds `startPolling()`: clear, then arm the interval. -/
def startPolling (s : MS) : MS :=
  let s1 := clearPolling s
  { s1 with pollTimer := true, livePolls := s1.livePolls + 1 }

/-- Embeds `sendCommand(cmd, data)`: refuse with `false` (after a warning log)
unless the socket is open; otherwise allocate the next request id, write
the frame and return `true`. -/
def sendCommand (s : MS) (cmd : ℕ) : MS × Bool :=
  if s.ws = some .opened then
    ({ s with requestId := s.requestId + 1,
              sentCmds := s.sentCmds ++ [(cmd, s.requestId + 1)] }, true)
  else (s, false)

/-- Embeds `requestStatus()` — SDCP command 0. -/
def requestStatus (s : MS) : MS × Bool := sendCommand s 0

/-- Embeds `pausePrint()` — SDCP command 129. -/
def pausePrint (s : MS) : MS × Bool := sendCommand s 129

/-- Embeds `resumePrint()` — SDCP command 131. -/
def resumePrint (s : MS) : MS × Bool := sendCommand s 131

/-- Embeds `cancelPrint()` — SDCP command 130. -/
def cancelPrint (s : MS) : MS × Bool := sendCommand s 130

/-- Embeds `toggleLight(on, rgb)` — SDCP command 403. -/
def toggleLight (s : MS) : MS × Bool := sendCommand s 403

/-- The `'open'` event handler: mark connected, start keep-alive, request
an initial status, start polling. -/
def onOpen (s : MS) : MS :=
  startPolling (requestStatus (startKeepAlive { s with isConnected := true })).1

/-- The `'error'` event handler: log and mark disconnected (nothing else —
the transport emits `'close'` afterwards). -/
def onError (s : MS) : MS :=
  { s with isConnected := false }

/-- The `'close'` event handler: mark disconnected, clear every timer and
schedule exactly one reconnect. -/
def onClose (s : MS) : MS :=
  scheduleReconnect (clearTimers { s with isConnected := false })

/-- The body of the polling interval: re-request status while connected,
otherwise warn and self-cancel. -/
def pollTick (s : MS) : MS :=
  if s.isConnected && decide (s.ws = some ReadyState.opened) then (requestStatus s).1
  else clearPolling s

/-- Embeds `stop()`: clear all timers, remove the listeners, close the socket if
it is open, drop the handle, mark disconnected.  The returned flag records
whether `close()` was invoked on the transport. -/
def stop (s : MS) : MS × Bool :=
  let s1 := clearTimers s
  match s1.ws with
  | some r => ({ s1 with ws := none, isConnected := false }, decide (r = ReadyState.opened))
  | none => ({ s1 with isConnected := false }, false)

/-- A transport failure notification: the `ws` library emits `'close'`
after every connection `'error'`, so one failure is either a bare close or
an error immediately followed by its close. -/
inductive FailureEvent where
  | closeOnly : FailureEvent
  | errorThenClose : FailureEvent
deriving DecidableEq, Repr

/-- Apply one transport failure to the service. -/
def applyFailure (s : MS) : FailureEvent → MS
  | .closeOnly => onClose s
  | .errorThenClose => onClose (onError s)

/-- The timer-runtime consistency invariant: each non-null handle owns
exactly one pending timer (established by the constructor, preserved by
every handler). -/
def timerInv (s : MS) : Prop :=
  s.liveReconnects = (if s.reconnectTimer then 1 else 0) ∧
  s.livePolls = (if s.pollTimer then 1 else 0) ∧
  s.liveKeepAlives = (if s.keepAliveTimer then 1 else 0)

/-- The `Data` block of an inbound SDCP message: `Cmd`, and the
acknowledgement code `Data.Data.Ack` when the nested block carries one. -/
structure DataBlock where
  cmd : Option JsNum
  dataAck : Option JsNum
deriving DecidableEq, Repr

/-- Classification of an acknowledgement code by `handleCommandResponse`:
the code's fixed table plus the `Unknown (...)` fallback. -/
inductive AckOutcome where
  | success : AckOutcome
  | failedError : AckOutcome
  | fileNotFound : AckOutcome
  | unknown : JsNum → AckOutcome
deriving DecidableEq, Repr

/-- The table lookup `ackMessages[ack] || Unknown (ack)`. -/
def ackOutcome (a : JsNum) : AckOutcome :=
  match a with
  | .num f =>
      if f.num = 0 then .success
      else if f.num = 1 * (f.den : ℤ) then .failedError
      else if f.num = 2 * (f.den : ℤ) then .fileNotFound
      else .unknown (.num f)
  | v => .unknown v

/-- Embeds `handleCommandResponse(message)` from `lib/monitoring.js`: reads only
`message.Data.Cmd` and `message.Data.Data.Ack`, classifies the ack code
and logs it.  No session state is read or written: the outcome is a pure
function of the frame. -/
def handleCommandResponse (d : DataBlock) : Option AckOutcome :=
  match d.dataAck with
  | some a => some (ackOutcome a)
  | none => none

/-- An inbound SDCP message as `handleMessage` inspects it. -/
structure SdcpMsg where
  status : Option StatusBlock
  data : Option DataBlock
  topic : Option String
deriving DecidableEq, Repr

/-- Whether `pat` starts the character list. -/
def startsWith : List Char → List Char → Bool
  | [], _ => true
  | _ :: _, [] => false
  | p :: ps, c :: cs => p = c && startsWith ps cs

/-- Whether `pat` occurs somewhere in the character list. -/
def containsSeq (pat : List Char) : List Char → Bool
  | [] => startsWith pat []
  | c :: cs => startsWith pat (c :: cs) || containsSeq pat cs

/-- JavaScript `s.includes(pat)`. -/
def strIncludes (s pat : String) : Bool :=
  containsSeq pat.toList s.toList

/-- Embeds `handleMessage(message)`: apply the status block when present, classify
a command response when `Data.Cmd` is defined, and re-apply the status
block for `sdcp/status/` topics.  Returns the updated device state and
the logged ack outcome, if any. -/
def handleMessage (dev : DeviceState) (m : SdcpMsg) : DeviceState × Option AckOutcome :=
  let d1 := match m.status with
    | some st => updatePrinterStatus dev st
    | none => dev
  let out := match m.data with
    | some db => if db.cmd.isSome then handleCommandResponse db else none
    | none => none
  let d2 := match m.topic with
    | some t =>
        if strIncludes t "sdcp/status/" then
          match m.status with
          | some st => updatePrinterStatus d1 st
          | none => d1
        else d1
    | none => d1
  (d2, out)

/-- The result of feeding one raw frame to the `'message'` handler: a
malformed frame is caught, logged and dropped (the device state is
untouched); a parsed frame goes through `handleMessage`. -/
def onMessage (dev : DeviceState) (frame : Except String SdcpMsg) : DeviceState × Option AckOutcome :=
  match frame with
  | .error _ => (dev, none)
  | .ok m => handleMessage dev m

/-- The draft `MonitoringHandler` of the unnamed alternate implementation.
Timers are modelled precisely by identifier: `pollTimer`/`reconnectTimer`
hold the object's handle fields (which `disconnect` deliberately does
*not* null), `nextT` allocates fresh timer ids, and `livePoll`/`liveRec`
list the ids of timeouts currently pending in the runtime. -/
structure MH where
  ws : Option ReadyState
  pollTimer : Option ℕ
  reconnectTimer : Option ℕ
  nextT : ℕ
  livePoll : List ℕ
  liveRec : List ℕ
deriving DecidableEq, Repr

/-- Embeds `clearTimeout(handle)` against a pending-id list: cancels that id if it
is still pending, does nothing otherwise. -/
def clearId (o : Option ℕ) (l : List ℕ) : List ℕ :=
  match o with
  | some i => l.erase i
  | none => l

/-- Embeds `_scheduleReconnect()` of the draft: arm a timeout only when the handle
field is null. -/
def mhScheduleReconnect (s : MH) : MH :=
  match s.reconnectTimer with
  | some _ => s
  | none =>
      { s with reconnectTimer := some s.nextT,
               liveRec := s.liveRec ++ [s.nextT],
               nextT := s.nextT + 1 }

/-- Embeds `stopPolling()` of the draft: cancel and null the poll handle. -/
def mhStopPolling (s : MH) : MH :=
  match s.pollTimer with
  | some i => { s with livePoll := s.livePoll.erase i, pollTimer := none }
  | none => s

/-- Embeds `disconnect()` of the draft: `clearTimeout` both handles (without
nulling the fields), then `close()` the socket if one is held.  The
listeners stay attached, so the socket's `'close'` event still fires
afterwards.  The flag records whether `close()` was invoked. -/
def mhDisconnect (s : MH) : MH × Bool :=
  let s1 := { s with livePoll := clearId s.pollTimer s.livePoll,
                     liveRec := clearId s.reconnectTimer s.liveRec }
  (s1, s.ws.isSome)

/-- The draft's `'close'` handler: log, write the connection state, stop
polling, schedule a reconnect. -/
def mhOnClose (s : MH) : MH :=
  mhScheduleReconnect (mhStopPolling s)

/-- The draft's `connect()`: construct a fresh socket (readyState
CONNECTING) and attach the handlers.  Nothing else is touched — in
particular the reconnect handle field is *not* cleared here; only the
`'open'` handler nulls it, so a connection attempt that fails leaves the
handle holding its stale id. -/
def mhConnect (s : MH) : MH :=
  { s with ws := some .connecting }

/-- The reconnect timeout firing: the runtime retires the pending timeout
(the handle field keeps its now-stale id, since the callback body is only
a log line plus `connect()`) and the callback runs `connect()`. -/
def mhReconnectFire (s : MH) : MH :=
  match s.reconnectTimer with
  | some i => mhConnect { s with liveRec := s.liveRec.erase i }
  | none => s

/-- A draft handler in the steady connected state: socket open, poll timer
armed, no reconnect pending. -/
def mhConnected : MH :=
  ⟨some .opened, some 0, none, 1, [0], []⟩

/-- A JavaScript value as passed to `ControlHandler.handleCommand`. -/
inductive JsVal where
  | str : String → JsVal
  | numv : JsNum → JsVal
  | boolv : Bool → JsVal
  | nullv : JsVal
deriving DecidableEq, Repr

/-- A runtime exception escaping a JavaScript function. -/
inductive JsErr where
  | referenceError : String → JsErr
  | typeError : String → JsErr
deriving DecidableEq, Repr

/-- A command object built by `ControlHandler.handleCommand`. -/
inductive CmdObj where
  | setTemp : String → JsVal → CmdObj
  | controlPrint : String → CmdObj
deriving DecidableEq, Repr

/-- The `ControlHandler` of `lib/control.js`: whether a WebSocket-client
getter was installed, the readyState of the client it returns (`none` for
a null client), and the command objects written to the socket. -/
structure CH where
  getterSet : Bool
  wsReady : Option ReadyState
  sentCtl : List CmdObj
deriving DecidableEq, Repr

/-- Embeds `_sendCommand(commandObject)`: error-log and return if no getter is
installed or the client is not open; otherwise serialize and send. -/
def chSendCommand (cs : CH) (o : CmdObj) : CH :=
  if cs.getterSet then
    match cs.wsReady with
    | some .opened => { cs with sentCtl := cs.sentCtl ++ [o] }
    | _ => cs
  else cs

/-- Embeds `handleCommand(command, value)` from `lib/control.js`.  The
`'command'` branch evaluates `includes(value.toUpperCase())`: `includes`
is a bare identifier that is nowhere defined, so a string value raises
`ReferenceError` at the call (and a non-string value already fails at
`value.toUpperCase()` with `TypeError`).  Unknown command names build no
command object and return silently. -/
def handleCommand (cs : CH) (command : String) (value : JsVal) : Except JsErr CH :=
  if command = "targetNozzleTemp" then
    .ok (chSendCommand cs (.setTemp "nozzle" value))
  else if command = "targetBedTemp" then
    .ok (chSendCommand cs (.setTemp "bed" value))
  else if command = "command" then
    match value with
    | .str _ => .error (.referenceError "includes is not defined")
    | _ => .error (.typeError "value.toUpperCase is not a function")
  else .ok cs

/-- A representative device state with known prior telemetry. -/
def samplePrev : DeviceState :=
  { nozzleActual := .num ⟨2105, 100⟩, bedActual := .num ⟨601, 10⟩,
    chamberActual := .int 28, nozzleTarget := .int 210, bedTarget := .int 60,
    chamberTarget := .int 0, fanModel := .int 42, fanAuxiliary := .int 55,
    fanChamber := .int 30, printStatusText := "Printing",
    printStatusCode := .int 13, progress := .int 40, currentLayer := .int 120,
    totalLayers := .int 300, speedPercentage := .int 100,
    filename := "benchy.gcode", totalTime := "02:00:00",
    elapsedTime := "00:48:00", remainingTime := "01:12:00",
    posX := .int 5, posY := .num ⟨71, 2⟩, posZ := .num ⟨12, 10⟩,
    zOffset := .num ⟨-25, 1000⟩, lightChamber := true,
    rgbR := .int 255, rgbG := .int 128, rgbB := .int 0 }

/-- An envelope carrying only `TempOfNozzle: 42.567`. -/
def nozzleEnvelope : StatusBlock :=
  { emptyStatus with TempOfNozzle := some (.num ⟨42567, 1000⟩) }

/-- A print-information block with both tick counters present
(elapsed 3600 s of a 7261 s job). -/
def ticksPI : PrintInfoBlock :=
  ⟨some (.int 13), some (.int 40), some (.int 120), some (.int 300),
   some (.int 100), some "benchy.gcode", some (.int 3600), some (.int 7261)⟩

/-- An envelope carrying only the print-information block `ticksPI`. -/
def ticksEnvelope : StatusBlock :=
  { emptyStatus with PrintInfo := some ticksPI }

/-- An envelope whose coordinate string has three non-numeric tokens. -/
def badCoordEnvelope : StatusBlock :=
  { emptyStatus with CurrenCoord := some "a,b,c" }

/-- An envelope with a well-formed coordinate string and a z-offset. -/
def coordZEnvelope : StatusBlock :=
  { emptyStatus with CurrenCoord := some "1.5,2,3",
                     ZOffset := some (.num ⟨25, 10000⟩) }

/-- A monitoring service in the steady connected state. -/
def connectedMS : MS :=
  ⟨some .opened, false, true, true, 5, true, 0, 1, 1, []⟩

/-- A control handler whose getter returns a client that is not open. -/
def sampleCH : CH :=
  ⟨true, none, []⟩

theorem applyTemps_eq (s : DeviceState) (st : StatusBlock) :
    applyTemps s st =
      { s with
        nozzleActual := match st.TempOfNozzle with
          | some t => round2 t
          | none => s.nozzleActual,
        bedActual := match st.TempOfHotbed with
          | some t => round2 t
          | none => s.bedActual,
        chamberActual := match st.TempOfBox with
          | some t => round2 t
          | none => s.chamberActual,
        nozzleTarget := match st.TempTargetNozzle with
          | some t => round2 t
          | none => s.nozzleTarget,
        bedTarget := match st.TempTargetHotbed with
          | some t => round2 t
          | none => s.bedTarget,
        chamberTarget := match st.TempTargetBox with
          | some t => round2 t
          | none => s.chamberTarget } := by
  unfold applyTemps
  repeat' split
  all_goals rfl

theorem applyFans_eq (s : DeviceState) (st : StatusBlock) :
    applyFans s st =
      { s with
        fanModel := match st.CurrentFanSpeed with
          | some f => jsOr0 f.ModelFan
          | none => s.fanModel,
        fanAuxiliary := match st.CurrentFanSpeed with
          | some f => jsOr0 f.AuxiliaryFan
          | none => s.fanAuxiliary,
        fanChamber := match st.CurrentFanSpeed with
          | some f => jsOr0 f.BoxFan
          | none => s.fanChamber } := by
  unfold applyFans
  repeat' split
  all_goals rfl

theorem applyZOffset_eq (s : DeviceState) (st : StatusBlock) :
    applyZOffset s st =
      { s with zOffset := match st.ZOffset with
          | some z => round4 z
          | none => s.zOffset } := by
  unfold applyZOffset
  repeat' split
  all_goals rfl

theorem applyPrintInfo_keeps (s : DeviceState) (st : StatusBlock) :
    (applyPrintInfo s st).nozzleActual = s.nozzleActual ∧
    (applyPrintInfo s st).bedActual = s.bedActual ∧
    (applyPrintInfo s st).chamberActual = s.chamberActual ∧
    (applyPrintInfo s st).nozzleTarget = s.nozzleTarget ∧
    (applyPrintInfo s st).bedTarget = s.bedTarget ∧
    (applyPrintInfo s st).chamberTarget = s.chamberTarget ∧
    (applyPrintInfo s st).fanModel = s.fanModel ∧
    (applyPrintInfo s st).fanAuxiliary = s.fanAuxiliary ∧
    (applyPrintInfo s st).fanChamber = s.fanChamber ∧
    (applyPrintInfo s st).posX = s.posX ∧
    (applyPrintInfo s st).posY = s.posY ∧
    (applyPrintInfo s st).posZ = s.posZ ∧
    (applyPrintInfo s st).zOffset = s.zOffset := by
  unfold applyPrintInfo
  repeat' constructor
  all_goals repeat' split
  all_goals rfl

theorem applyCoords_keeps (s : DeviceState) (st : StatusBlock) :
    (applyCoords s st).nozzleActual = s.nozzleActual ∧
    (applyCoords s st).bedActual = s.bedActual ∧
    (applyCoords s st).chamberActual = s.chamberActual ∧
    (applyCoords s st).nozzleTarget = s.nozzleTarget ∧
    (applyCoords s st).bedTarget = s.bedTarget ∧
    (applyCoords s st).chamberTarget = s.chamberTarget ∧
    (applyCoords s st).fanModel = s.fanModel ∧
    (applyCoords s st).fanAuxiliary = s.fanAuxiliary ∧
    (applyCoords s st).fanChamber = s.fanChamber ∧
    (applyCoords s st).remainingTime = s.remainingTime ∧
    (applyCoords s st).zOffset = s.zOffset := by
  unfold applyCoords
  repeat' constructor
  all_goals repeat' split
  all_goals rfl

theorem applyLights_keeps (s : DeviceState) (st : StatusBlock) :
    (applyLights s st).nozzleActual = s.nozzleActual ∧
    (applyLights s st).bedActual = s.bedActual ∧
    (applyLights s st).chamberActual = s.chamberActual ∧
    (applyLights s st).nozzleTarget = s.nozzleTarget ∧
    (applyLights s st).bedTarget = s.bedTarget ∧
    (applyLights s st).chamberTarget = s.chamberTarget ∧
    (applyLights s st).fanModel = s.fanModel ∧
    (applyLights s st).fanAuxiliary = s.fanAuxiliary ∧
    (applyLights s st).fanChamber = s.fanChamber ∧
    (applyLights s st).remainingTime = s.remainingTime ∧
    (applyLights s st).posX = s.posX ∧
    (applyLights s st).posY = s.posY ∧
    (applyLights s st).posZ = s.posZ ∧
    (applyLights s st).zOffset = s.zOffset := by
  unfold applyLights
  repeat' constructor
  all_goals repeat' split
  all_goals rfl

theorem applyPrintInfo_remaining (s : DeviceState) (st : StatusBlock)
    (pi : PrintInfoBlock) (e t : JsNum)
    (hpi : st.PrintInfo = some pi)
    (he : pi.CurrentTicks = some e) (ht : pi.TotalTicks = some t)
    (hef : jsFalsy e = false) (htf : jsFalsy t = false) :
    (applyPrintInfo s st).remainingTime = formatTime (jsMax0 (jsSub t e)) := by
  unfold applyPrintInfo
  rw [hpi]
  have h1 : truthyN pi.CurrentTicks = true := by
    rw [he]; simp [truthyN, hef]
  have h2 : truthyN pi.TotalTicks = true := by
    rw [ht]; simp [truthyN, htf]
  have h3 : jsOr0 pi.TotalTicks = t := by
    rw [ht]; simp [jsOr0, htf]
  have h4 : jsOr0 pi.CurrentTicks = e := by
    rw [he]; simp [jsOr0, hef]
  simp only [h1, h2, h3, h4, Bool.and_self, if_true]

theorem applyFans_none (s : DeviceState) (st : StatusBlock)
    (h : st.CurrentFanSpeed = none) : applyFans s st = s := by
  unfold applyFans
  rw [h]

theorem applyCoords_three (s : DeviceState) (st : StatusBlock) (c : String)
    (hc : st.CurrenCoord = some c) (hlen : (jsSplit c ',').length = 3) :
    (applyCoords s st).posX = jsOr0 (some (parseFloat ((jsSplit c ',').getD 0 ""))) ∧
    (applyCoords s st).posY = jsOr0 (some (parseFloat ((jsSplit c ',').getD 1 ""))) ∧
    (applyCoords s st).posZ = jsOr0 (some (parseFloat ((jsSplit c ',').getD 2 ""))) := by
  have hne : ¬c = "" := by
    intro h0
    rw [h0] at hlen
    simp [jsSplit, splitCharAux] at hlen
  unfold applyCoords
  rw [hc]
  simp only [hne, if_false, hlen, if_true, ite_false, ite_true]
  exact ⟨by trivial, by trivial, by trivial⟩

theorem applyCoords_other (s : DeviceState) (st : StatusBlock) (c : String)
    (hc : st.CurrenCoord = some c) (hlen : (jsSplit c ',').length ≠ 3) :
    (applyCoords s st).posX = s.posX ∧
    (applyCoords s st).posY = s.posY ∧
    (applyCoords s st).posZ = s.posZ := by
  unfold applyCoords
  rw [hc]
  by_cases h0 : c = ""
  · simp only [h0, if_true, ite_true]
    exact ⟨by trivial, by trivial, by trivial⟩
  · simp only [h0, hlen, if_false, ite_false]
    exact ⟨by trivial, by trivial, by trivial⟩

/-- C10: the two alternate time formatters, `formatTime` of
`lib/monitoring.js` and `formatSeconds` of the unnamed draft, are
extensionally equal: on every JavaScript number — zero, `NaN`, negative
and non-finite values included — they return the same string.  (They
differ only in the guard, `!seconds` against `isNaN(seconds)`, and the
two guards disagree exactly on `0`/`-0`, where the computed branch also
yields `"00:00:00"`.) -/
theorem formatTime_eq_formatSeconds (v : JsNum) : formatTime v = formatSeconds v := by
  cases v with
  | nan => rfl
  | inf => rfl
  | ninf => rfl
  | num f =>
    rcases f with ⟨fn, fd⟩
    rcases lt_trichotomy fn 0 with h | h | h
    · have h1 : jsNeg (.num ⟨fn, fd⟩) = true := by simp [jsNeg, h]
      unfold formatTime formatSeconds
      simp [h1]
    · subst h
      have h1 : jsFalsy (.num ⟨(0 : ℤ), fd⟩) = true := by simp [jsFalsy]
      have h2 : jsNeg (.num ⟨(0 : ℤ), fd⟩) = false := by simp [jsNeg]
      have h3 : jsIsNaN (.num ⟨(0 : ℤ), fd⟩) = false := rfl
      unfold formatTime formatSeconds
      simp only [h1, h2, h3, Bool.true_or, Bool.false_or, if_true, if_false,
        ite_true, ite_false]
      simp [jsDivC, jsModC, fracTrunc, fracFloor, floorToString, padStart2]
      all_goals decide
    · have h1 : jsFalsy (.num ⟨fn, fd⟩) = false := by
        simp only [jsFalsy, decide_eq_false_iff_not]
        omega
      have h2 : jsNeg (.num ⟨fn, fd⟩) = false := by
        simp only [jsNeg, decide_eq_false_iff_not]
        omega
      unfold formatTime formatSeconds
      simp [h1, h2, jsIsNaN]

/-- C1: refuted on `lib/control.js` — `handleCommand('command', value)`
evaluates the bare identifier `includes`, which is defined nowhere, so the
call raises `ReferenceError` instead of completing (and `main.js` invokes
`handleCommand` from `onStateChange` with no surrounding `try`).  The
message-handler half of the claim does hold: a malformed frame is caught,
logged and dropped with the device state untouched (second conjunct). -/
theorem handleCommand_command_throws :
    handleCommand ⟨true, some .opened, []⟩ "command" (.str "pause") =
      .error (.referenceError "includes is not defined") ∧
    onMessage samplePrev (.error "Unexpected token") = (samplePrev, none) :=
  ⟨rfl, rfl⟩

/-- C3: refuted on the draft implementation — `disconnect()` clears the
pending timeouts and closes the socket but never detaches the listeners,
so the socket's `'close'` event still runs the close handler, whose
`_scheduleReconnect()` finds the (never-nulled, here `null`) handle empty
and arms a fresh reconnect timer: after shutdown from the steady connected
state exactly one reconnect timeout is pending, violating "never leaves or
schedules a reconnect timer afterward". -/
theorem draft_disconnect_schedules_reconnect :
    (mhOnClose (mhDisconnect mhConnected).1).liveRec = [1] ∧
    (mhOnClose (mhDisconnect mhConnected).1).reconnectTimer = some 1 ∧
    (mhDisconnect mhConnected).2 = true := by
  exact ⟨rfl, rfl, rfl⟩

/-- C2: refuted on the draft implementation cited by the claim.  The first
transport failure arms exactly one reconnect timer (first conjunct), but
the reconnect callback never nulls `this.reconnectTimer` — only the
`'open'` handler does — so when that timer fires and the reconnect attempt
fails, the second close's `_scheduleReconnect` sees the stale truthy
handle and arms nothing: after two consecutive transport failures with no
successful open and no shutdown, *zero* reconnect timers are pending
(second conjunct) while the handle still holds the retired id (third
conjunct), and the draft session stays disconnected forever.  The claim
requires exactly one pending reconnect timer, never zero.
(`MonitoringService` of `lib/monitoring.js` does satisfy the claim:
`reconnect_convergence` above.) -/
theorem draft_reconnect_lost_after_refire :
    (mhOnClose mhConnected).liveRec = [1] ∧
    (mhOnClose (mhReconnectFire (mhOnClose mhConnected))).liveRec = [] ∧
    (mhOnClose (mhReconnectFire (mhOnClose mhConnected))).reconnectTimer = some 1 := by
  exact ⟨rfl, rfl, rfl⟩

/-- C5 counterexample: `handleMessage` produces a command outcome
(`Success`) for a response frame although no command was ever sent — under
the claim, an outcome may arise only by finding and removing the matching
stored `PendingRequest`, and none could exist.  Indeed `sendCommand`
stores nothing: the post-state of a send from the connected service
differs from the pre-state only in the id counter and the wire log
(second conjunct), there is no pending-request storage in the service at
all. -/
theorem response_outcome_without_pending :
    (handleMessage samplePrev ⟨none, some ⟨some (.int 0), some (.int 0)⟩, none⟩).2 =
      some AckOutcome.success ∧
    (sendCommand connectedMS 129).1 =
      ⟨some .opened, false, true, true, 6, true, 0, 1, 1, [(129, 6)]⟩ :=
  ⟨rfl, by decide⟩

theorem applyTemps_keep_fanModel (s : DeviceState) (st : StatusBlock) :
    (applyTemps s st).fanModel = s.fanModel := by
  rw [applyTemps_eq]

theorem applyTemps_keep_fanAuxiliary (s : DeviceState) (st : StatusBlock) :
    (applyTemps s st).fanAuxiliary = s.fanAuxiliary := by
  rw [applyTemps_eq]

theorem applyTemps_keep_fanChamber (s : DeviceState) (st : StatusBlock) :
    (applyTemps s st).fanChamber = s.fanChamber := by
  rw [applyTemps_eq]

theorem applyTemps_keep_zOffset (s : DeviceState) (st : StatusBlock) :
    (applyTemps s st).zOffset = s.zOffset := by
  rw [applyTemps_eq]

theorem applyTemps_val_nozzleActual (s : DeviceState) (st : StatusBlock) :
    (applyTemps s st).nozzleActual =
      (match st.TempOfNozzle with
       | some t => round2 t
       | none => s.nozzleActual) := by
  rw [applyTemps_eq]

theorem applyTemps_val_bedActual (s : DeviceState) (st : StatusBlock) :
    (applyTemps s st).bedActual =
      (match st.TempOfHotbed with
       | some t => round2 t
       | none => s.bedActual) := by
  rw [applyTemps_eq]

theorem applyTemps_val_chamberActual (s : DeviceState) (st : StatusBlock) :
    (applyTemps s st).chamberActual =
      (match st.TempOfBox with
       | some t => round2 t
       | none => s.chamberActual) := by
  rw [applyTemps_eq]

theorem applyTemps_val_nozzleTarget (s : DeviceState) (st : StatusBlock) :
    (applyTemps s st).nozzleTarget =
      (match st.TempTargetNozzle with
       | some t => round2 t
       | none => s.nozzleTarget) := by
  rw [applyTemps_eq]

theorem applyTemps_val_bedTarget (s : DeviceState) (st : StatusBlock) :
    (applyTemps s st).bedTarget =
      (match st.TempTargetHotbed with
       | some t => round2 t
       | none => s.bedTarget) := by
  rw [applyTemps_eq]

theorem applyTemps_val_chamberTarget (s : DeviceState) (st : StatusBlock) :
    (applyTemps s st).chamberTarget =
      (match st.TempTargetBox with
       | some t => round2 t
       | none => s.chamberTarget) := by
  rw [applyTemps_eq]

theorem applyFans_keep_nozzleActual (s : DeviceState) (st : StatusBlock) :
    (applyFans s st).nozzleActual = s.nozzleActual := by
  rw [applyFans_eq]

theorem applyFans_keep_bedActual (s : DeviceState) (st : StatusBlock) :
    (applyFans s st).bedActual = s.bedActual := by
  rw [applyFans_eq]

theorem applyFans_keep_chamberActual (s : DeviceState) (st : StatusBlock) :
    (applyFans s st).chamberActual = s.chamberActual := by
  rw [applyFans_eq]

theorem applyFans_keep_nozzleTarget (s : DeviceState) (st : StatusBlock) :
    (applyFans s st).nozzleTarget = s.nozzleTarget := by
  rw [applyFans_eq]

theorem applyFans_keep_bedTarget (s : DeviceState) (st : StatusBlock) :
    (applyFans s st).bedTarget = s.bedTarget := by
  rw [applyFans_eq]

theorem applyFans_keep_chamberTarget (s : DeviceState) (st : StatusBlock) :
    (applyFans s st).chamberTarget = s.chamberTarget := by
  rw [applyFans_eq]

theorem applyFans_keep_zOffset (s : DeviceState) (st : StatusBlock) :
    (applyFans s st).zOffset = s.zOffset := by
  rw [applyFans_eq]

theorem applyPrintInfo_keep_nozzleActual (s : DeviceState) (st : StatusBlock) :
    (applyPrintInfo s st).nozzleActual = s.nozzleActual :=
  (applyPrintInfo_keeps s st).1

theorem applyPrintInfo_keep_bedActual (s : DeviceState) (st : StatusBlock) :
    (applyPrintInfo s st).bedActual = s.bedActual :=
  (applyPrintInfo_keeps s st).2.1

theorem applyPrintInfo_keep_chamberActual (s : DeviceState) (st : StatusBlock) :
    (applyPrintInfo s st).chamberActual = s.chamberActual :=
  (applyPrintInfo_keeps s st).2.2.1

theorem applyPrintInfo_keep_nozzleTarget (s : DeviceState) (st : StatusBlock) :
    (applyPrintInfo s st).nozzleTarget = s.nozzleTarget :=
  (applyPrintInfo_keeps s st).2.2.2.1

theorem applyPrintInfo_keep_bedTarget (s : DeviceState) (st : StatusBlock) :
    (applyPrintInfo s st).bedTarget = s.bedTarget :=
  (applyPrintInfo_keeps s st).2.2.2.2.1

theorem applyPrintInfo_keep_chamberTarget (s : DeviceState) (st : StatusBlock) :
    (applyPrintInfo s st).chamberTarget = s.chamberTarget :=
  (applyPrintInfo_keeps s st).2.2.2.2.2.1

theorem applyPrintInfo_keep_fanModel (s : DeviceState) (st : StatusBlock) :
    (applyPrintInfo s st).fanModel = s.fanModel :=
  (applyPrintInfo_keeps s st).2.2.2.2.2.2.1

theorem applyPrintInfo_keep_fanAuxiliary (s : DeviceState) (st : StatusBlock) :
    (applyPrintInfo s st).fanAuxiliary = s.fanAuxiliary :=
  (applyPrintInfo_keeps s st).2.2.2.2.2.2.2.1

theorem applyPrintInfo_keep_fanChamber (s : DeviceState) (st : StatusBlock) :
    (applyPrintInfo s st).fanChamber = s.fanChamber :=
  (applyPrintInfo_keeps s st).2.2.2.2.2.2.2.2.1

theorem applyPrintInfo_keep_posX (s : DeviceState) (st : StatusBlock) :
    (applyPrintInfo s st).posX = s.posX :=
  (applyPrintInfo_keeps s st).2.2.2.2.2.2.2.2.2.1

theorem applyPrintInfo_keep_posY (s : DeviceState) (st : StatusBlock) :
    (applyPrintInfo s st).posY = s.posY :=
  (applyPrintInfo_keeps s st).2.2.2.2.2.2.2.2.2.2.1

theorem applyPrintInfo_keep_posZ (s : DeviceState) (st : StatusBlock) :
    (applyPrintInfo s st).posZ = s.posZ :=
  (applyPrintInfo_keeps s st).2.2.2.2.2.2.2.2.2.2.2.1

theorem applyPrintInfo_keep_zOffset (s : DeviceState) (st : StatusBlock) :
    (applyPrintInfo s st).zOffset = s.zOffset :=
  (applyPrintInfo_keeps s st).2.2.2.2.2.2.2.2.2.2.2.2

theorem applyCoords_keep_nozzleActual (s : DeviceState) (st : StatusBlock) :
    (applyCoords s st).nozzleActual = s.nozzleActual :=
  (applyCoords_keeps s st).1

theorem applyCoords_keep_bedActual (s : DeviceState) (st : StatusBlock) :
    (applyCoords s st).bedActual = s.bedActual :=
  (applyCoords_keeps s st).2.1

theorem applyCoords_keep_chamberActual (s : DeviceState) (st : StatusBlock) :
    (applyCoords s st).chamberActual = s.chamberActual :=
  (applyCoords_keeps s st).2.2.1

theorem applyCoords_keep_nozzleTarget (s : DeviceState) (st : StatusBlock) :
    (applyCoords s st).nozzleTarget = s.nozzleTarget :=
  (applyCoords_keeps s st).2.2.2.1

theorem applyCoords_keep_bedTarget (s : DeviceState) (st : StatusBlock) :
    (applyCoords s st).bedTarget = s.bedTarget :=
  (applyCoords_keeps s st).2.2.2.2.1

theorem applyCoords_keep_chamberTarget (s : DeviceState) (st : StatusBlock) :
    (applyCoords s st).chamberTarget = s.chamberTarget :=
  (applyCoords_keeps s st).2.2.2.2.2.1

theorem applyCoords_keep_fanModel (s : DeviceState) (st : StatusBlock) :
    (applyCoords s st).fanModel = s.fanModel :=
  (applyCoords_keeps s st).2.2.2.2.2.2.1

theorem applyCoords_keep_fanAuxiliary (s : DeviceState) (st : StatusBlock) :
    (applyCoords s st).fanAuxiliary = s.fanAuxiliary :=
  (applyCoords_keeps s st).2.2.2.2.2.2.2.1

theorem applyCoords_keep_fanChamber (s : DeviceState) (st : StatusBlock) :
    (applyCoords s st).fanChamber = s.fanChamber :=
  (applyCoords_keeps s st).2.2.2.2.2.2.2.2.1

theorem applyCoords_keep_remainingTime (s : DeviceState) (st : StatusBlock) :
    (applyCoords s st).remainingTime = s.remainingTime :=
  (applyCoords_keeps s st).2.2.2.2.2.2.2.2.2.1

theorem applyCoords_keep_zOffset (s : DeviceState) (st : StatusBlock) :
    (applyCoords s st).zOffset = s.zOffset :=
  (applyCoords_keeps s st).2.2.2.2.2.2.2.2.2.2

theorem applyZOffset_keep_nozzleActual (s : DeviceState) (st : StatusBlock) :
    (applyZOffset s st).nozzleActual = s.nozzleActual := by
  rw [applyZOffset_eq]

theorem applyZOffset_keep_bedActual (s : DeviceState) (st : StatusBlock) :
    (applyZOffset s st).bedActual = s.bedActual := by
  rw [applyZOffset_eq]

theorem applyZOffset_keep_chamberActual (s : DeviceState) (st : StatusBlock) :
    (applyZOffset s st).chamberActual = s.chamberActual := by
  rw [applyZOffset_eq]

theorem applyZOffset_keep_nozzleTarget (s : DeviceState) (st : StatusBlock) :
    (applyZOffset s st).nozzleTarget = s.nozzleTarget := by
  rw [applyZOffset_eq]

theorem applyZOffset_keep_bedTarget (s : DeviceState) (st : StatusBlock) :
    (applyZOffset s st).bedTarget = s.bedTarget := by
  rw [applyZOffset_eq]

theorem applyZOffset_keep_chamberTarget (s : DeviceState) (st : StatusBlock) :
    (applyZOffset s st).chamberTarget = s.chamberTarget := by
  rw [applyZOffset_eq]

theorem applyZOffset_keep_fanModel (s : DeviceState) (st : StatusBlock) :
    (applyZOffset s st).fanModel = s.fanModel := by
  rw [applyZOffset_eq]

theorem applyZOffset_keep_fanAuxiliary (s : DeviceState) (st : StatusBlock) :
    (applyZOffset s st).fanAuxiliary = s.fanAuxiliary := by
  rw [applyZOffset_eq]

theorem applyZOffset_keep_fanChamber (s : DeviceState) (st : StatusBlock) :
    (applyZOffset s st).fanChamber = s.fanChamber := by
  rw [applyZOffset_eq]

theorem applyZOffset_keep_remainingTime (s : DeviceState) (st : StatusBlock) :
    (applyZOffset s st).remainingTime = s.remainingTime := by
  rw [applyZOffset_eq]

theorem applyZOffset_keep_posX (s : DeviceState) (st : StatusBlock) :
    (applyZOffset s st).posX = s.posX := by
  rw [applyZOffset_eq]

theorem applyZOffset_keep_posY (s : DeviceState) (st : StatusBlock) :
    (applyZOffset s st).posY = s.posY := by
  rw [applyZOffset_eq]

theorem applyZOffset_keep_posZ (s : DeviceState) (st : StatusBlock) :
    (applyZOffset s st).posZ = s.posZ := by
  rw [applyZOffset_eq]

theorem applyZOffset_val_zOffset (s : DeviceState) (st : StatusBlock) :
    (applyZOffset s st).zOffset =
      (match st.ZOffset with
       | some z => round4 z
       | none => s.zOffset) := by
  rw [applyZOffset_eq]

theorem applyLights_keep_nozzleActual (s : DeviceState) (st : StatusBlock) :
    (applyLights s st).nozzleActual = s.nozzleActual :=
  (applyLights_keeps s st).1

theorem applyLights_keep_bedActual (s : DeviceState) (st : StatusBlock) :
    (applyLights s st).bedActual = s.bedActual :=
  (applyLights_keeps s st).2.1

theorem applyLights_keep_chamberActual (s : DeviceState) (st : StatusBlock) :
    (applyLights s st).chamberActual = s.chamberActual :=
  (applyLights_keeps s st).2.2.1

theorem applyLights_keep_nozzleTarget (s : DeviceState) (st : StatusBlock) :
    (applyLights s st).nozzleTarget = s.nozzleTarget :=
  (applyLights_keeps s st).2.2.2.1

theorem applyLights_keep_bedTarget (s : DeviceState) (st : StatusBlock) :
    (applyLights s st).bedTarget = s.bedTarget :=
  (applyLights_keeps s st).2.2.2.2.1

theorem applyLights_keep_chamberTarget (s : DeviceState) (st : StatusBlock) :
    (applyLights s st).chamberTarget = s.chamberTarget :=
  (applyLights_keeps s st).2.2.2.2.2.1

theorem applyLights_keep_fanModel (s : DeviceState) (st : StatusBlock) :
    (applyLights s st).fanModel = s.fanModel :=
  (applyLights_keeps s st).2.2.2.2.2.2.1

theorem applyLights_keep_fanAuxiliary (s : DeviceState) (st : StatusBlock) :
    (applyLights s st).fanAuxiliary = s.fanAuxiliary :=
  (applyLights_keeps s st).2.2.2.2.2.2.2.1

theorem applyLights_keep_fanChamber (s : DeviceState) (st : StatusBlock) :
    (applyLights s st).fanChamber = s.fanChamber :=
  (applyLights_keeps s st).2.2.2.2.2.2.2.2.1

theorem applyLights_keep_remainingTime (s : DeviceState) (st : StatusBlock) :
    (applyLights s st).remainingTime = s.remainingTime :=
  (applyLights_keeps s st).2.2.2.2.2.2.2.2.2.1

theorem applyLights_keep_posX (s : DeviceState) (st : StatusBlock) :
    (applyLights s st).posX = s.posX :=
  (applyLights_keeps s st).2.2.2.2.2.2.2.2.2.2.1

theorem applyLights_keep_posY (s : DeviceState) (st : StatusBlock) :
    (applyLights s st).posY = s.posY :=
  (applyLights_keeps s st).2.2.2.2.2.2.2.2.2.2.2.1

theorem applyLights_keep_posZ (s : DeviceState) (st : StatusBlock) :
    (applyLights s st).posZ = s.posZ :=
  (applyLights_keeps s st).2.2.2.2.2.2.2.2.2.2.2.2.1

theorem applyLights_keep_zOffset (s : DeviceState) (st : StatusBlock) :
    (applyLights s st).zOffset = s.zOffset :=
  (applyLights_keeps s st).2.2.2.2.2.2.2.2.2.2.2.2.2

theorem timerInv_onError (s : MS) (h : timerInv s) : timerInv (onError s) := h

theorem onClose_spec (s : MS) (h : timerInv s) :
    (onClose s).isConnected = false ∧ (onClose s).reconnectTimer = true ∧
    (onClose s).liveReconnects = 1 ∧ timerInv (onClose s) := by
  obtain ⟨h1, h2, h3⟩ := h
  rcases s with ⟨ws, rt, pt, kt, rid, ic, lr, lp, lk, sc⟩
  simp only at h1 h2 h3
  unfold onClose scheduleReconnect clearTimers clearReconnect clearPolling clearKeepAlive timerInv
  cases rt <;> cases pt <;> cases kt <;> simp_all

theorem applyFailure_spec (s : MS) (e : FailureEvent) (h : timerInv s) :
    (applyFailure s e).isConnected = false ∧ (applyFailure s e).reconnectTimer = true ∧
    (applyFailure s e).liveReconnects = 1 ∧ timerInv (applyFailure s e) := by
  cases e with
  | closeOnly => exact onClose_spec s h
  | errorThenClose => exact onClose_spec (onError s) (timerInv_onError s h)

theorem foldl_failures (evs : List FailureEvent) (s : MS) (h : timerInv s) (hne : evs ≠ []) :
    (List.foldl applyFailure s evs).isConnected = false ∧
    (List.foldl applyFailure s evs).reconnectTimer = true ∧
    (List.foldl applyFailure s evs).liveReconnects = 1 := by
  induction evs generalizing s with
  | nil => exact absurd rfl hne
  | cons e rest ih =>
    cases rest with
    | nil =>
        have h1 := applyFailure_spec s e h
        exact ⟨h1.1, h1.2.1, h1.2.2.1⟩
    | cons e2 r2 =>
        have h1 := applyFailure_spec s e h
        exact ih (applyFailure s e) h1.2.2.2 (by simp)

/-- The reconnect discipline of the `MonitoringService` in
`lib/monitoring.js`: after any nonempty run of consecutive transport
failures (each a `'close'`, possibly preceded by its `'error'`) with no
open and no shutdown in between, the service is disconnected and exactly
one reconnect timer is pending, and scheduling while one is pending never
duplicates, because `scheduleReconnect` clears the pending timeout before
arming the new one (fourth conjunct); the draft's `_scheduleReconnect`
likewise never duplicates, refusing outright while its handle is set
(fifth conjunct).  The draft nevertheless refutes the reconnect-convergence
claim on its "never zero" half — see `draft_reconnect_lost_after_refire`
below. -/
theorem reconnect_convergence (s : MS) (evs : List FailureEvent)
    (hinv : timerInv s) (hne : evs ≠ []) :
    (List.foldl applyFailure s evs).isConnected = false ∧
    (List.foldl applyFailure s evs).reconnectTimer = true ∧
    (List.foldl applyFailure s evs).liveReconnects = 1 ∧
    (∀ t : MS, timerInv t → t.reconnectTimer = true →
       (scheduleReconnect t).liveReconnects = 1 ∧
       (scheduleReconnect t).reconnectTimer = true) ∧
    (∀ (u : MH) (i : ℕ), u.reconnectTimer = some i → mhScheduleReconnect u = u) := by
  have hf := foldl_failures evs s hinv hne
  refine ⟨hf.1, hf.2.1, hf.2.2, ?_, ?_⟩
  · intro t ht htr
    obtain ⟨t1, _, _⟩ := ht
    unfold scheduleReconnect clearReconnect
    rw [htr] at t1
    simp [htr, t1]
  · intro u i hu
    unfold mhScheduleReconnect
    rw [hu]

/-- C4: every intent invoked while the session is not connected is
rejected without an exception and writes nothing to the transport:
`pausePrint`/`resumePrint`/`cancelPrint`/`toggleLight` return `false` with
the service state untouched (the warning log aside), and the
set-temperature intents of `ControlHandler` return normally through
`_sendCommand`, which error-logs and sends nothing when the client it
obtains is not open. -/
theorem intents_rejected_when_disconnected (s : MS) (cs : CH) (v : JsVal)
    (hs : s.ws ≠ some ReadyState.opened)
    (hc : cs.wsReady ≠ some ReadyState.opened) :
    pausePrint s = (s, false) ∧ resumePrint s = (s, false) ∧
    cancelPrint s = (s, false) ∧ toggleLight s = (s, false) ∧
    handleCommand cs "targetNozzleTemp" v = .ok cs ∧
    handleCommand cs "targetBedTemp" v = .ok cs := by
  have hsend : ∀ c : ℕ, sendCommand s c = (s, false) := by
    intro c
    unfold sendCommand
    simp [hs]
  have hctl : chSendCommand cs (.setTemp "nozzle" v) = cs ∧
      chSendCommand cs (.setTemp "bed" v) = cs := by
    unfold chSendCommand
    rcases cs with ⟨g, w, l⟩
    simp only at hc
    cases g
    · simp
    · rcases w with _ | r
      · simp
      · cases r <;> simp_all
  refine ⟨hsend 129, hsend 131, hsend 130, hsend 403, ?_, ?_⟩
  · unfold handleCommand
    simp [hctl.1]
  · unfold handleCommand
    simp [hctl.2]

/-- C5 amended: `sendCommand` allocates the next counter-derived request id
and records nothing beyond the id counter and the wire log — no
`PendingRequest` is stored; a command-response envelope is classified
purely by its `Ack` code (`0` Success, `1` Failed/Error, `2` File Not
Found, anything else `Unknown(code)`), with no lookup or removal by id and
hence trivially independent of response order; and the poll tick merely
issues another status request — nothing is purged, because nothing is
stored. -/
theorem command_response_by_ack_only (s : MS) (c : ℕ) (d : DataBlock) (a : JsNum)
    (hs : s.ws = some ReadyState.opened) (ha : d.dataAck = some a) :
    sendCommand s c =
      ({ s with requestId := s.requestId + 1,
                sentCmds := s.sentCmds ++ [(c, s.requestId + 1)] }, true) ∧
    handleCommandResponse d = some (ackOutcome a) ∧
    (s.isConnected = true → pollTick s = (requestStatus s).1) := by
  refine ⟨?_, ?_, ?_⟩
  · unfold sendCommand
    simp [hs]
  · unfold handleCommandResponse
    rw [ha]
  · intro hic
    unfold pollTick
    simp [hic, hs]

theorem int_repr_natCast (m : ℕ) : Int.repr (m : ℤ) = Nat.repr m := rfl

theorem fracFloor_natCast (a b : ℕ) : fracFloor ⟨(a : ℤ), b⟩ = ((a / b : ℕ) : ℤ) := by
  unfold fracFloor
  exact (Int.natCast_div a b).symm

theorem fracTrunc_natCast (a b : ℕ) : fracTrunc ⟨(a : ℤ), b⟩ = ((a / b : ℕ) : ℤ) := by
  unfold fracTrunc
  rw [if_pos (by positivity : (0 : ℤ) ≤ ((a : ℕ) : ℤ))]
  exact fracFloor_natCast a b

theorem jsModC_int (n c : ℕ) :
    jsModC (JsNum.int (n : ℤ)) c = JsNum.int ((n % c : ℕ) : ℤ) := by
  have h1 : fracTrunc ⟨(n : ℤ), 1 * c⟩ = ((n / c : ℕ) : ℤ) := by
    rw [Nat.one_mul]
    exact fracTrunc_natCast n c
  unfold jsModC JsNum.int
  simp only [h1]
  congr 1
  have h3 : ((n : ℕ) : ℤ) = ((c * (n / c) + n % c : ℕ) : ℤ) :=
    (congrArg (Nat.cast : ℕ → ℤ) (Nat.div_add_mod n c)).symm
  rw [h3]
  push_cast
  ring_nf

theorem floorToString_div_int (m c : ℕ) :
    floorToString (jsDivC (JsNum.int (m : ℤ)) c) = Nat.repr (m / c) := by
  unfold jsDivC JsNum.int floorToString
  dsimp only
  rw [show fracFloor ⟨(m : ℤ), 1 * c⟩ = ((m / c : ℕ) : ℤ) by
        rw [Nat.one_mul]; exact fracFloor_natCast m c]
  exact int_repr_natCast (m / c)

theorem floorToString_int (m : ℕ) :
    floorToString (JsNum.int (m : ℤ)) = Nat.repr m := by
  unfold JsNum.int floorToString
  dsimp only
  rw [show fracFloor ⟨(m : ℤ), 1⟩ = ((m / 1 : ℕ) : ℤ) from fracFloor_natCast m 1,
      Nat.div_one]
  exact int_repr_natCast m

theorem formatTime_nat (n : ℕ) :
    formatTime (JsNum.int (n : ℤ)) =
      padStart2 (Nat.repr (n / 3600)) ++ ":" ++
      padStart2 (Nat.repr (n % 3600 / 60)) ++ ":" ++
      padStart2 (Nat.repr (n % 60)) := by
  by_cases h0 : n = 0
  · subst h0
    decide
  · have hguard1 : jsFalsy (JsNum.int (n : ℤ)) = false := by
      simp only [JsNum.int, jsFalsy, decide_eq_false_iff_not]
      omega
    have hguard2 : jsNeg (JsNum.int (n : ℤ)) = false := by
      simp only [JsNum.int, jsNeg, decide_eq_false_iff_not]
      omega
    unfold formatTime
    rw [hguard1, hguard2]
    simp only [Bool.or_self, Bool.false_eq_true, if_false]
    rw [floorToString_div_int n 3600, jsModC_int n 3600,
        floorToString_div_int (n % 3600) 60, jsModC_int n 60,
        floorToString_int (n % 60)]

theorem applyTemps_keep_posX (s : DeviceState) (st : StatusBlock) :
    (applyTemps s st).posX = s.posX := by
  rw [applyTemps_eq]

theorem applyFans_keep_posX (s : DeviceState) (st : StatusBlock) :
    (applyFans s st).posX = s.posX := by
  rw [applyFans_eq]

theorem applyTemps_keep_posY (s : DeviceState) (st : StatusBlock) :
    (applyTemps s st).posY = s.posY := by
  rw [applyTemps_eq]

theorem applyFans_keep_posY (s : DeviceState) (st : StatusBlock) :
    (applyFans s st).posY = s.posY := by
  rw [applyFans_eq]

theorem applyTemps_keep_posZ (s : DeviceState) (st : StatusBlock) :
    (applyTemps s st).posZ = s.posZ := by
  rw [applyTemps_eq]

theorem applyFans_keep_posZ (s : DeviceState) (st : StatusBlock) :
    (applyFans s st).posZ = s.posZ := by
  rw [applyFans_eq]

/-- C6: `formatTime` maps the claimed specials exactly —
`formatTime(3661) = "01:01:01"`, negative and `NaN` inputs map to
`"00:00:00"` — and on every natural number of seconds it produces the
zero-padded `H:M:S` rendering of `n/3600`, `n%3600/60`, `n%60` (fourth
conjunct); and the remaining-time string written by the normalizer is the
formatting of `Math.max(0, total − elapsed)` whenever both tick counters
are present and truthy (fifth conjunct). -/
theorem time_formatting_spec (n : ℕ) (prev : DeviceState) (st : StatusBlock)
    (pi : PrintInfoBlock) (e t : JsNum)
    (hpi : st.PrintInfo = some pi)
    (he : pi.CurrentTicks = some e) (ht : pi.TotalTicks = some t)
    (hef : jsFalsy e = false) (htf : jsFalsy t = false) :
    formatTime (.int 3661) = "01:01:01" ∧
    formatTime (.int (-5)) = "00:00:00" ∧
    formatTime .nan = "00:00:00" ∧
    formatTime (JsNum.int (n : ℤ)) =
      padStart2 (Nat.repr (n / 3600)) ++ ":" ++
      padStart2 (Nat.repr (n % 3600 / 60)) ++ ":" ++
      padStart2 (Nat.repr (n % 60)) ∧
    (updatePrinterStatus prev st).remainingTime = formatTime (jsMax0 (jsSub t e)) := by
  refine ⟨by decide, by decide, by decide, formatTime_nat n, ?_⟩
  unfold updatePrinterStatus
  rw [applyLights_keep_remainingTime, applyZOffset_keep_remainingTime,
      applyCoords_keep_remainingTime]
  exact applyPrintInfo_remaining _ st pi e t hpi he ht hef htf

/-- C7: an envelope whose `CurrentFanSpeed` block is absent leaves all
three fan-speed fields exactly as they were (they are not reset to 0),
and — the general form — an envelope carrying no field group at all
leaves the whole device state unchanged. -/
theorem absent_fan_group_retained (prev : DeviceState) (st : StatusBlock)
    (h : st.CurrentFanSpeed = none) :
    (updatePrinterStatus prev st).fanModel = prev.fanModel ∧
    (updatePrinterStatus prev st).fanAuxiliary = prev.fanAuxiliary ∧
    (updatePrinterStatus prev st).fanChamber = prev.fanChamber ∧
    updatePrinterStatus prev emptyStatus = prev := by
  refine ⟨?_, ?_, ?_, rfl⟩
  · unfold updatePrinterStatus
    rw [applyLights_keep_fanModel, applyZOffset_keep_fanModel,
        applyCoords_keep_fanModel, applyPrintInfo_keep_fanModel,
        applyFans_none _ _ h, applyTemps_keep_fanModel]
  · unfold updatePrinterStatus
    rw [applyLights_keep_fanAuxiliary, applyZOffset_keep_fanAuxiliary,
        applyCoords_keep_fanAuxiliary, applyPrintInfo_keep_fanAuxiliary,
        applyFans_none _ _ h, applyTemps_keep_fanAuxiliary]
  · unfold updatePrinterStatus
    rw [applyLights_keep_fanChamber, applyZOffset_keep_fanChamber,
        applyCoords_keep_fanChamber, applyPrintInfo_keep_fanChamber,
        applyFans_none _ _ h, applyTemps_keep_fanChamber]

/-- C8 counterexample: the coordinate string `"a,b,c"` has exactly three
comma-separated tokens, all non-numeric.  The claim requires such a string
be treated as a decode failure with the position fields skipped unchanged;
the code instead writes `parseFloat(token) || 0 = 0` into all three,
overwriting the previous `posX = 5`. -/
theorem nonnumeric_coords_overwrite :
    (updatePrinterStatus samplePrev badCoordEnvelope).posX = JsNum.int 0 ∧
    (updatePrinterStatus samplePrev badCoordEnvelope).posY = JsNum.int 0 ∧
    (updatePrinterStatus samplePrev badCoordEnvelope).posZ = JsNum.int 0 ∧
    samplePrev.posX = JsNum.int 5 ∧ JsNum.int 5 ≠ JsNum.int 0 := by
  exact ⟨by decide, by decide, by decide, rfl, by decide⟩

/-- C8 amended: a truthy coordinate string of exactly three
comma-separated tokens writes `parseFloat(token) || 0` to x/y/z — so
non-numeric tokens become `0`, they are not skipped; any other token
count leaves the position fields unchanged (and nothing is logged, as
`split` cannot throw); in every case the rest of the envelope is still
processed (the z-offset write goes through, third conjunct). -/
theorem coordinate_parsing (prev : DeviceState) (st : StatusBlock) (c : String)
    (hc : st.CurrenCoord = some c) :
    ((jsSplit c ',').length = 3 →
       (updatePrinterStatus prev st).posX =
         jsOr0 (some (parseFloat ((jsSplit c ',').getD 0 ""))) ∧
       (updatePrinterStatus prev st).posY =
         jsOr0 (some (parseFloat ((jsSplit c ',').getD 1 ""))) ∧
       (updatePrinterStatus prev st).posZ =
         jsOr0 (some (parseFloat ((jsSplit c ',').getD 2 "")))) ∧
    ((jsSplit c ',').length ≠ 3 →
       (updatePrinterStatus prev st).posX = prev.posX ∧
       (updatePrinterStatus prev st).posY = prev.posY ∧
       (updatePrinterStatus prev st).posZ = prev.posZ) ∧
    (∀ z, st.ZOffset = some z → (updatePrinterStatus prev st).zOffset = round4 z) := by
  refine ⟨?_, ?_, ?_⟩
  · intro hlen
    have h3 := applyCoords_three
      (applyPrintInfo (applyFans (applyTemps prev st) st) st) st c hc hlen
    unfold updatePrinterStatus
    refine ⟨?_, ?_, ?_⟩
    · rw [applyLights_keep_posX, applyZOffset_keep_posX]
      exact h3.1
    · rw [applyLights_keep_posY, applyZOffset_keep_posY]
      exact h3.2.1
    · rw [applyLights_keep_posZ, applyZOffset_keep_posZ]
      exact h3.2.2
  · intro hlen
    have h3 := applyCoords_other
      (applyPrintInfo (applyFans (applyTemps prev st) st) st) st c hc hlen
    unfold updatePrinterStatus
    refine ⟨?_, ?_, ?_⟩
    · rw [applyLights_keep_posX, applyZOffset_keep_posX, h3.1,
          applyPrintInfo_keep_posX, applyFans_keep_posX, applyTemps_keep_posX]
    · rw [applyLights_keep_posY, applyZOffset_keep_posY, h3.2.1,
          applyPrintInfo_keep_posY, applyFans_keep_posY, applyTemps_keep_posY]
    · rw [applyLights_keep_posZ, applyZOffset_keep_posZ, h3.2.2,
          applyPrintInfo_keep_posZ, applyFans_keep_posZ, applyTemps_keep_posZ]
  · intro z hz
    unfold updatePrinterStatus
    rw [applyLights_keep_zOffset, applyZOffset_val_zOffset, hz]

/-- C9: every temperature field present in the envelope is written rounded
to 2 decimal places (each of the six actual/target fields, conjuncts 1–6),
`ZOffset` is written rounded to 4 decimal places (conjunct 7), absent
temperature fields stay untouched (conjuncts 8–9), and concretely the
envelope `{Status:{TempOfNozzle: 42.567}}` yields nozzle actual `42.57`
with bed and chamber unchanged (conjuncts 10–12). -/
theorem temperature_rounding (prev : DeviceState) (st : StatusBlock) :
    (∀ v, st.TempOfNozzle = some v →
       (updatePrinterStatus prev st).nozzleActual = round2 v) ∧
    (∀ v, st.TempOfHotbed = some v →
       (updatePrinterStatus prev st).bedActual = round2 v) ∧
    (∀ v, st.TempOfBox = some v →
       (updatePrinterStatus prev st).chamberActual = round2 v) ∧
    (∀ v, st.TempTargetNozzle = some v →
       (updatePrinterStatus prev st).nozzleTarget = round2 v) ∧
    (∀ v, st.TempTargetHotbed = some v →
       (updatePrinterStatus prev st).bedTarget = round2 v) ∧
    (∀ v, st.TempTargetBox = some v →
       (updatePrinterStatus prev st).chamberTarget = round2 v) ∧
    (∀ v, st.ZOffset = some v →
       (updatePrinterStatus prev st).zOffset = round4 v) ∧
    (st.TempOfHotbed = none →
       (updatePrinterStatus prev st).bedActual = prev.bedActual) ∧
    (st.TempOfBox = none →
       (updatePrinterStatus prev st).chamberActual = prev.chamberActual) ∧
    (updatePrinterStatus samplePrev nozzleEnvelope).nozzleActual =
      JsNum.num ⟨4257, 100⟩ ∧
    (updatePrinterStatus samplePrev nozzleEnvelope).bedActual =
      samplePrev.bedActual ∧
    (updatePrinterStatus samplePrev nozzleEnvelope).chamberActual =
      samplePrev.chamberActual := by
  refine ⟨?_, ?_, ?_, ?_, ?_, ?_, ?_, ?_, ?_, by decide, by decide, by decide⟩
  · intro v hv
    unfold updatePrinterStatus
    rw [applyLights_keep_nozzleActual, applyZOffset_keep_nozzleActual,
        applyCoords_keep_nozzleActual, applyPrintInfo_keep_nozzleActual,
        applyFans_keep_nozzleActual, applyTemps_val_nozzleActual, hv]
  · intro v hv
    unfold updatePrinterStatus
    rw [applyLights_keep_bedActual, applyZOffset_keep_bedActual,
        applyCoords_keep_bedActual, applyPrintInfo_keep_bedActual,
        applyFans_keep_bedActual, applyTemps_val_bedActual, hv]
  · intro v hv
    unfold updatePrinterStatus
    rw [applyLights_keep_chamberActual, applyZOffset_keep_chamberActual,
        applyCoords_keep_chamberActual, applyPrintInfo_keep_chamberActual,
        applyFans_keep_chamberActual, applyTemps_val_chamberActual, hv]
  · intro v hv
    unfold updatePrinterStatus
    rw [applyLights_keep_nozzleTarget, applyZOffset_keep_nozzleTarget,
        applyCoords_keep_nozzleTarget, applyPrintInfo_keep_nozzleTarget,
        applyFans_keep_nozzleTarget, applyTemps_val_nozzleTarget, hv]
  · intro v hv
    unfold updatePrinterStatus
    rw [applyLights_keep_bedTarget, applyZOffset_keep_bedTarget,
        applyCoords_keep_bedTarget, applyPrintInfo_keep_bedTarget,
        applyFans_keep_bedTarget, applyTemps_val_bedTarget, hv]
  · intro v hv
    unfold updatePrinterStatus
    rw [applyLights_keep_chamberTarget, applyZOffset_keep_chamberTarget,
        applyCoords_keep_chamberTarget, applyPrintInfo_keep_chamberTarget,
        applyFans_keep_chamberTarget, applyTemps_val_chamberTarget, hv]
  · intro v hv
    unfold updatePrinterStatus
    rw [applyLights_keep_zOffset, applyZOffset_val_zOffset, hv]
  · intro hv
    unfold updatePrinterStatus
    rw [applyLights_keep_bedActual, applyZOffset_keep_bedActual,
        applyCoords_keep_bedActual, applyPrintInfo_keep_bedActual,
        applyFans_keep_bedActual, applyTemps_val_bedActual, hv]
  · intro hv
    unfold updatePrinterStatus
    rw [applyLights_keep_chamberActual, applyZOffset_keep_chamberActual,
        applyCoords_keep_chamberActual, applyPrintInfo_keep_chamberActual,
        applyFans_keep_chamberActual, applyTemps_val_chamberActual, hv]

/-- Concrete run of `reconnect_convergence`: one failure event from the
freshly constructed service leaves it disconnected with exactly one
reconnect timer pending. -/
theorem reconnect_convergence_witness :
    (List.foldl applyFailure initMS [FailureEvent.closeOnly]).isConnected = false ∧
    (List.foldl applyFailure initMS [FailureEvent.closeOnly]).reconnectTimer = true ∧
    (List.foldl applyFailure initMS [FailureEvent.closeOnly]).liveReconnects = 1 :=
  have h := reconnect_convergence initMS [FailureEvent.closeOnly]
    ⟨rfl, rfl, rfl⟩ (by decide)
  ⟨h.1, h.2.1, h.2.2.1⟩

/-- Witness for C4: `pause()` on the fresh (disconnected) service returns
`false` with nothing sent, and a set-temperature intent against a
non-open client returns normally with nothing sent. -/
theorem intents_rejected_witness :
    pausePrint initMS = (initMS, false) ∧
    handleCommand sampleCH "targetNozzleTemp" (JsVal.numv (JsNum.int 210)) =
      .ok sampleCH :=
  have h := intents_rejected_when_disconnected initMS sampleCH
    (JsVal.numv (JsNum.int 210)) (by decide) (by decide)
  ⟨h.1, h.2.2.2.2.1⟩

/-- Witness for the amended C5: a send from the connected service yields
exactly the incremented counter and wire log, and the `Ack = 1` response
classifies as `Failed/Error` with no state consulted. -/
theorem command_response_witness :
    sendCommand connectedMS 131 =
      (⟨some .opened, false, true, true, 6, true, 0, 1, 1, [(131, 6)]⟩, true) ∧
    handleCommandResponse ⟨some (.int 0), some (.int 1)⟩ =
      some (ackOutcome (.int 1)) :=
  have h := command_response_by_ack_only connectedMS 131
    ⟨some (.int 0), some (.int 1)⟩ (.int 1) rfl rfl
  ⟨by rw [h.1]; decide, h.2.1⟩

/-- Witness for C6: the envelope with elapsed 3600 s of 7261 s writes
remaining time `max(0, 7261 − 3600) = 3661 s`, formatted `"01:01:01"`. -/
theorem time_formatting_witness :
    (updatePrinterStatus samplePrev ticksEnvelope).remainingTime =
      formatTime (jsMax0 (jsSub (JsNum.int 7261) (JsNum.int 3600))) ∧
    formatTime (jsMax0 (jsSub (JsNum.int 7261) (JsNum.int 3600))) = "01:01:01" :=
  have h := time_formatting_spec 3661 samplePrev ticksEnvelope ticksPI
    (JsNum.int 3600) (JsNum.int 7261) rfl rfl rfl (by decide) (by decide)
  ⟨h.2.2.2.2, by decide⟩

/-- Witness for C7: applying the fan-free nozzle envelope leaves the known
prior fan speeds 42/55/30 untouched. -/
theorem absent_fan_witness :
    (updatePrinterStatus samplePrev nozzleEnvelope).fanModel = samplePrev.fanModel ∧
    (updatePrinterStatus samplePrev nozzleEnvelope).fanAuxiliary = samplePrev.fanAuxiliary ∧
    (updatePrinterStatus samplePrev nozzleEnvelope).fanChamber = samplePrev.fanChamber :=
  have h := absent_fan_group_retained samplePrev nozzleEnvelope rfl
  ⟨h.1, h.2.1, h.2.2.1⟩

/-- Witness for the amended C8: `"1.5,2,3"` writes `x = 1.5` and the
z-offset of the same envelope is processed. -/
theorem coordinate_parsing_witness :
    (updatePrinterStatus samplePrev coordZEnvelope).posX = JsNum.num ⟨15, 10⟩ ∧
    (updatePrinterStatus samplePrev coordZEnvelope).zOffset = JsNum.num ⟨25, 10000⟩ :=
  have h := coordinate_parsing samplePrev coordZEnvelope "1.5,2,3" rfl
  ⟨by rw [(h.1 (by decide)).1]; decide,
   by rw [h.2.2 (JsNum.num ⟨25, 10000⟩) rfl]; decide⟩

/-- Witness for C9: the nozzle envelope writes `round2(42.567) = 42.57`
and leaves the bed temperature as it was. -/
theorem temperature_rounding_witness :
    (updatePrinterStatus samplePrev nozzleEnvelope).nozzleActual =
      round2 (JsNum.num ⟨42567, 1000⟩) ∧
    (updatePrinterStatus samplePrev nozzleEnvelope).bedActual =
      samplePrev.bedActual :=
  have h := temperature_rounding samplePrev nozzleEnvelope
  ⟨h.1 (JsNum.num ⟨42567, 1000⟩) rfl, h.2.2.2.2.2.2.2.1 rfl⟩
